/-
Verification of the ComfyUI-Outpainting-Gemini repository.

This file gives a shallow embedding, in Lean 4, of the two source files of
the repository:

  * `nano_banana_pad.py` — a static table of supported output geometries
    (`DIMENSION_MAP`), a flattener (`get_all_dimensions`), an exact lookup
    (`get_dimensions`), a best-fit search (`find_best_fit`) and the node
    entry point (`NanaBananaPadCalculator.calculate`) that resolves the
    aspect-ratio / resolution hints and computes centering padding;

  * `__init__.py` — the request-building portion of
    `GeminiImageGenerate.generate`, which assembles the HTTP request sent
    to the generation service.

Python `int` values that are known non-negative (image sizes, pad widths)
are modelled as `Nat`; all subtractions in the source occur after an
explicit bounds check, so `Nat` subtraction agrees with `int` subtraction
at every use site.  Python exceptions (`raise ValueError`) are modelled by
an `Except FitError` result, with one `FitError` constructor per distinct
`raise` site, carrying the data interpolated into the Python message.
Python's `list.sort` is a stable sort; it is embedded as
`List.insertionSort`, which is likewise stable, so both produce the same
list for the same key order.
-/
import Mathlib

deriving instance DecidableEq for Except

namespace NanoBananaPad

/-- One flattened entry of the dimension table: output width, output
height, API aspect-ratio label and resolution tier, in the order produced
by `get_all_dimensions` in `nano_banana_pad.py`. -/
structure Dim where
  w : Nat
  h : Nat
  ar : String
  res : String
deriving DecidableEq, Repr

/-- One constructor per distinct `raise ValueError` site of
`nano_banana_pad.py`, carrying the data interpolated into the message. -/
inductive FitError where
  /-- line 132: invalid `aspect_ratio` argument (not in `VALID_ASPECT_RATIOS`). -/
  | invalidAspectRatio (aspect_ratio : String)
  /-- line 134: invalid `resolution` argument (not in `VALID_RESOLUTIONS`). -/
  | invalidResolution (resolution : String)
  /-- line 78 (`get_dimensions`): aspect ratio not a key of `DIMENSION_MAP`. -/
  | unknownAspectRatio (aspect_ratio : String)
  /-- line 80 (`get_dimensions`): resolution not a key of the inner map. -/
  | unknownResolution (resolution : String)
  /-- line 96 (`find_best_fit`): image exceeds all supported sizes. -/
  | sizeExceeded (W H : Nat)
  /-- line 150: image too large for the pinned resolution tier. -/
  | tooLargeForResolution (W H : Nat) (resolution : String)
  /-- line 164: image too large for the pinned aspect ratio at any tier. -/
  | tooLargeForAspect (W H : Nat) (aspect_ratio : String)
  /-- line 172: image larger than the resolved target in some dimension. -/
  | oversizedTarget (W H tw th : Nat) (aspect_ratio resolution : String)
deriving DecidableEq, Repr

/-- `DIMENSION_MAP` of `nano_banana_pad.py` (lines 8–60), as an association
list in the source's iteration order (Python dicts preserve insertion
order).  Inner maps send a resolution tier to the output `(W, H)`. -/
def DIMENSION_MAP : List (String × List (String × (Nat × Nat))) :=
  [ ("1:1",  [("1K", (1024, 1024)), ("2K", (2048, 2048)), ("4K", (4096, 4096))])
  , ("5:4",  [("1K", (1152, 928)),  ("2K", (2304, 1856)), ("4K", (4608, 3712))])
  , ("4:5",  [("1K", (928, 1152)),  ("2K", (1856, 2304)), ("4K", (3712, 4608))])
  , ("4:3",  [("1K", (1200, 896)),  ("2K", (2400, 1792)), ("4K", (4800, 3584))])
  , ("3:4",  [("1K", (896, 1200)),  ("2K", (1792, 2400)), ("4K", (3584, 4800))])
  , ("3:2",  [("1K", (1264, 848)),  ("2K", (2528, 1696)), ("4K", (5056, 3392))])
  , ("2:3",  [("1K", (848, 1264)),  ("2K", (1696, 2528)), ("4K", (3392, 5056))])
  , ("16:9", [("1K", (1376, 768)),  ("2K", (2752, 1536)), ("4K", (5504, 3072))])
  , ("9:16", [("1K", (768, 1376)),  ("2K", (1536, 2752)), ("4K", (3072, 5504))])
  , ("21:9", [("1K", (1584, 672)),  ("2K", (3168, 1344)), ("4K", (6336, 2688))])
  ]

/-- `VALID_ASPECT_RATIOS` (line 62). -/
def VALID_ASPECT_RATIOS : List String :=
  ["auto", "1:1", "5:4", "4:5", "4:3", "3:4", "3:2", "2:3", "16:9", "9:16", "21:9"]

/-- `VALID_RESOLUTIONS` (line 63). -/
def VALID_RESOLUTIONS : List String := ["auto", "1K", "2K", "4K"]

/-- `get_all_dimensions` (lines 66–72): flatten `DIMENSION_MAP` into a list
of `(W, H, api_ratio, resolution)` tuples, in iteration order. -/
def get_all_dimensions : List Dim :=
  DIMENSION_MAP.flatMap fun p => p.2.map fun q => ⟨q.2.1, q.2.2, p.1, q.1⟩

/-- `get_dimensions` (lines 75–81): exact lookup of `(W, H)` for an
aspect-ratio label and resolution tier; Python dict membership followed by
indexing is `List.lookup` on the association list. -/
def get_dimensions (aspect_ratio resolution : String) :
    Except FitError (Nat × Nat) :=
  match DIMENSION_MAP.lookup aspect_ratio with
  | none => .error (.unknownAspectRatio aspect_ratio)
  | some res_map =>
    match res_map.lookup resolution with
    | none => .error (.unknownResolution resolution)
    | some wh => .ok wh

/-- The sort key order of `find_best_fit` line 102
(`key=lambda x: x[0] * x[1]`, total pixels, smallest first). -/
def dimLE (a b : Dim) : Prop := a.w * a.h ≤ b.w * b.h

instance : DecidableRel dimLE := fun a b =>
  inferInstanceAs (Decidable (a.w * a.h ≤ b.w * b.h))

instance : IsTotal Dim dimLE := ⟨fun _ _ => Nat.le_total _ _⟩

instance : IsTrans Dim dimLE := ⟨fun _ _ _ => Nat.le_trans⟩

/-- The candidate list of `find_best_fit` with `must_grow=True`
(lines 89–90): entries that contain the source with at least one strictly
larger dimension. -/
def growCandidates (W H : Nat) : List Dim :=
  get_all_dimensions.filter fun d =>
    decide (W ≤ d.w ∧ H ≤ d.h ∧ (W < d.w ∨ H < d.h))

/-- The candidate list of `find_best_fit` with `must_grow=False`
(lines 92–93): entries that contain the source. -/
def containCandidates (W H : Nat) : List Dim :=
  get_all_dimensions.filter fun d => decide (W ≤ d.w ∧ H ≤ d.h)

/-- `find_best_fit` (lines 84–105): filter the flattened table, fail when
no candidate remains, otherwise stable-sort by total pixels and return the
aspect label and resolution of the first element. -/
def find_best_fit (W H : Nat) (must_grow : Bool := true) :
    Except FitError (String × String) :=
  let candidates := if must_grow then growCandidates W H else containCandidates W H
  match candidates.insertionSort dimLE with
  | [] => .error (.sizeExceeded W H)
  | d :: _ => .ok (d.ar, d.res)

/-- Python string comparison `s₁ <= s₂` on char lists: lexicographic by
code point, a proper prefix preceding its extensions. -/
def pyStrLeAux : List Char → List Char → Bool
  | [], _ => true
  | _ :: _, [] => false
  | a :: as, b :: bs =>
    if a.toNat < b.toNat then true
    else if a.toNat = b.toNat then pyStrLeAux as bs
    else false

/-- Python string comparison `s₁ <= s₂`: lexicographic over the code
points of the two strings. -/
def pyStrLe (a b : String) : Bool := pyStrLeAux a.data b.data

/-- Python tuple comparison `(area₁, label₁) <= (area₂, label₂)` used by
`candidates.sort()` on line 153: lexicographic, the numeric first
component first, then the label strings under Python string order. -/
def pairLE (a b : Nat × String) : Prop :=
  a.1 < b.1 ∨ (a.1 = b.1 ∧ pyStrLe a.2 b.2 = true)

instance : DecidableRel pairLE := fun a b =>
  inferInstanceAs (Decidable (a.1 < b.1 ∨ (a.1 = b.1 ∧ pyStrLe a.2 b.2 = true)))

/-- The candidate list of the fixed-resolution / auto-aspect branch
(lines 142–147): for each table key whose inner map has the pinned
resolution and whose entry requires strict growth, the pair
`(tw * th, api_ratio)`, in iteration order. -/
def resCandidates (W H : Nat) (resolution : String) : List (Nat × String) :=
  DIMENSION_MAP.filterMap fun p =>
    match p.2.lookup resolution with
    | some wh =>
      if W ≤ wh.1 ∧ H ≤ wh.2 ∧ (W < wh.1 ∨ H < wh.2) then
        some (wh.1 * wh.2, p.1)
      else none
    | none => none

/-- The fixed-aspect / auto-resolution loop (lines 158–166): walk the
tiers in the given order and return the first whose entry requires strict
growth; the Python `for … else` raises when the loop completes.  An
exception from `get_dimensions` propagates. -/
def pickResolution (W H : Nat) (aspect_ratio : String) :
    List String → Except FitError String
  | [] => .error (.tooLargeForAspect W H aspect_ratio)
  | r :: rest =>
    match get_dimensions aspect_ratio r with
    | .error e => .error e
    | .ok (tw, th) =>
      if W ≤ tw ∧ H ≤ th ∧ (W < tw ∨ H < th) then .ok r
      else pickResolution W H aspect_ratio rest

/-- The loop condition of the fixed-aspect / auto-resolution branch
(lines 159–160), as a Boolean on a tier: the entry for `(ar, r)` exists
and contains the source with at least one strictly larger dimension. -/
def tierFits (W H : Nat) (ar r : String) : Bool :=
  match get_dimensions ar r with
  | .ok wh => decide (W ≤ wh.1 ∧ H ≤ wh.2 ∧ (W < wh.1 ∨ H < wh.2))
  | .error _ => false

/-- The hint-resolution block of `calculate` (lines 136–166), producing
the final `(aspect_ratio, resolution)` pair or the first raised error.
The fixed-resolution branch checks emptiness and then stable-sorts and
takes element 0; matching on the sorted list is equivalent since the sort
of a list is empty exactly when the list is. -/
def resolveHints (W H : Nat) (aspect_ratio resolution : String) :
    Except FitError (String × String) :=
  if aspect_ratio = "auto" ∧ resolution = "auto" then
    find_best_fit W H true
  else if aspect_ratio = "auto" then
    match (resCandidates W H resolution).insertionSort pairLE with
    | [] => .error (.tooLargeForResolution W H resolution)
    | c :: _ => .ok (c.2, resolution)
  else if resolution = "auto" then
    match pickResolution W H aspect_ratio ["1K", "2K", "4K"] with
    | .ok r => .ok (aspect_ratio, r)
    | .error e => .error e
  else .ok (aspect_ratio, resolution)

/-- The eight outputs of `NanaBananaPadCalculator.calculate`, in the order
of `RETURN_NAMES` (line 122). -/
structure PadResult where
  pad_left : Nat
  pad_right : Nat
  pad_top : Nat
  pad_bottom : Nat
  target_w : Nat
  target_h : Nat
  aspect_ratio : String
  resolution : String
deriving DecidableEq, Repr

/-- The body of `NanaBananaPadCalculator.calculate` (lines 130–185) after
the image's height and width have been read from its shape: input
validation, hint resolution, final lookup, oversize check, and the
even-split padding arithmetic of lines 177–184. -/
def calcWithSize (W H : Nat) (aspect_ratio resolution : String) :
    Except FitError PadResult :=
  if aspect_ratio ∉ VALID_ASPECT_RATIOS then
    .error (.invalidAspectRatio aspect_ratio)
  else if resolution ∉ VALID_RESOLUTIONS then
    .error (.invalidResolution resolution)
  else
    match resolveHints W H aspect_ratio resolution with
    | .error e => .error e
    | .ok (ar, res) =>
      match get_dimensions ar res with
      | .error e => .error e
      | .ok (tw, th) =>
        if tw < W ∨ th < H then
          .error (.oversizedTarget W H tw th ar res)
        else
          -- pad_h = tw - W, pad_v = th - H,
          -- pad_left = pad_h // 2, pad_right = pad_h - pad_left,
          -- pad_top = pad_v // 2, pad_bottom = pad_v - pad_top
          .ok ⟨(tw - W) / 2, (tw - W) - (tw - W) / 2,
               (th - H) / 2, (th - H) - (th - H) / 2, tw, th, ar, res⟩

/-- A ComfyUI image tensor as far as `calculate` observes it: the four
components of `image.shape` (batch, height, width, channels), plus the
pixel payload, which `calculate` never reads. -/
structure ImageTensor where
  batch : Nat
  height : Nat
  width : Nat
  channels : Nat
  data : List Nat
deriving DecidableEq, Repr

/-- `NanaBananaPadCalculator.calculate` (lines 126–185): destructure the
shape as `_, H, W, _ = image.shape` and run the body. -/
def calculate (image : ImageTensor) (aspect_ratio resolution : String) :
    Except FitError PadResult :=
  let H := image.height
  let W := image.width
  calcWithSize W H aspect_ratio resolution

end NanoBananaPad

namespace GeminiNode

/-- An `inline_data` part of the request body (`__init__.py` line 59). -/
structure InlineData where
  mime_type : String
  data : String
deriving DecidableEq, Repr

/-- One element of `contents[0].parts`: either the prompt text (line 58)
or the encoded image (line 59). -/
inductive Part where
  | text (t : String)
  | inline_data (d : InlineData)
deriving DecidableEq, Repr

/-- `generationConfig.imageConfig` (lines 64–67). -/
structure ImageConfig where
  aspectRatio : String
  imageSize : String
deriving DecidableEq, Repr

/-- `generationConfig` (lines 62–68). -/
structure GenerationConfig where
  responseModalities : List String
  imageConfig : ImageConfig
deriving DecidableEq, Repr

/-- One element of the `contents` array (lines 56–61). -/
structure Content where
  parts : List Part
deriving DecidableEq, Repr

/-- The outbound HTTP request assembled by `GeminiImageGenerate.generate`
(lines 50–69): URL, the two headers, and the JSON payload. -/
structure GeminiRequest where
  url : String
  x_goog_api_key : String
  content_type : String
  contents : List Content
  generationConfig : GenerationConfig
deriving DecidableEq, Repr

/-- The request-building portion of `GeminiImageGenerate.generate`
(`__init__.py` lines 50–69).  The PNG serialization and base64 encoding of
the input tensor (lines 42–47) are abstracted as the opaque string
`img_b64` that the source interpolates into the body; everything after the
`requests.post` call is outside this pure model.  The function is total:
`generate` performs no validation of its string inputs before the network
call. -/
def buildGeminiRequest (prompt api_key model aspect_ratio resolution img_b64 : String) :
    GeminiRequest :=
  { url := "https://generativelanguage.googleapis.com/v1beta/models/" ++ model ++ ":generateContent"
  , x_goog_api_key := api_key
  , content_type := "application/json"
  , contents := [⟨[.text prompt, .inline_data ⟨"image/png", img_b64⟩]⟩]
  , generationConfig := ⟨["Image"], ⟨aspect_ratio, resolution⟩⟩ }

end GeminiNode

namespace NanoBananaPad

theorem pyStrLeAux_total : ∀ as bs,
    pyStrLeAux as bs = true ∨ pyStrLeAux bs as = true := by
  intro as
  induction as with
  | nil => intro bs; exact Or.inl rfl
  | cons a as ih =>
    intro bs
    cases bs with
    | nil => exact Or.inr rfl
    | cons b bs =>
      by_cases h1 : a.toNat < b.toNat
      · exact Or.inl (by simp [pyStrLeAux, h1])
      by_cases h2 : a.toNat = b.toNat
      · rcases ih bs with h | h
        · exact Or.inl (by simp [pyStrLeAux, h1, h2, h])
        · refine Or.inr ?_
          simp [pyStrLeAux, show ¬b.toNat < a.toNat by omega, h2.symm, h]
      · refine Or.inr ?_
        simp [pyStrLeAux, show b.toNat < a.toNat by omega]

theorem pyStrLeAux_trans : ∀ as bs cs, pyStrLeAux as bs = true →
    pyStrLeAux bs cs = true → pyStrLeAux as cs = true := by
  intro as
  induction as with
  | nil => intros; rfl
  | cons a as ih =>
    intro bs cs h1 h2
    cases bs with
    | nil => simp [pyStrLeAux] at h1
    | cons b bs =>
      cases cs with
      | nil => simp [pyStrLeAux] at h2
      | cons c cs =>
        simp only [pyStrLeAux] at h1 h2 ⊢
        split at h1
        · rename_i hab
          split at h2
          · rename_i hbc
            rw [if_pos (by omega)]
          · split at h2
            · rename_i hbc1 hbc2
              rw [if_pos (by omega)]
            · simp at h2
        · split at h1
          · rename_i hab1 hab2
            split at h2
            · rename_i hbc
              rw [if_pos (by omega)]
            · split at h2
              · rename_i hbc1 hbc2
                rw [if_neg (by omega), if_pos (by omega)]
                exact ih bs cs h1 h2
              · simp at h2
          · simp at h1

theorem pyStrLeAux_antisymm : ∀ as bs, pyStrLeAux as bs = true →
    pyStrLeAux bs as = true → as = bs := by
  intro as
  induction as with
  | nil =>
    intro bs h1 h2
    cases bs with
    | nil => rfl
    | cons b bs => simp [pyStrLeAux] at h2
  | cons a as ih =>
    intro bs h1 h2
    cases bs with
    | nil => simp [pyStrLeAux] at h1
    | cons b bs =>
      simp only [pyStrLeAux] at h1 h2
      split at h1
      · rename_i hab
        rw [if_neg (by omega), if_neg (by omega)] at h2
        simp at h2
      · split at h1
        · rename_i hab1 hab2
          have hc : a = b := Char.eq_of_val_eq (UInt32.ext hab2)
          subst hc
          rw [if_neg (by omega), if_pos rfl] at h2
          rw [ih bs h1 h2]
        · simp at h1

theorem string_data_inj {a b : String} (h : a.data = b.data) : a = b := by
  cases a; cases b; exact congrArg String.mk h

instance : IsTotal (Nat × String) pairLE :=
  ⟨fun a b => by
    rcases Nat.lt_trichotomy a.1 b.1 with h | h | h
    · exact Or.inl (Or.inl h)
    · rcases pyStrLeAux_total a.2.data b.2.data with h2 | h2
      · exact Or.inl (Or.inr ⟨h, h2⟩)
      · exact Or.inr (Or.inr ⟨h.symm, h2⟩)
    · exact Or.inr (Or.inl h)⟩

instance : IsTrans (Nat × String) pairLE :=
  ⟨fun a b c hab hbc => by
    rcases hab with h1 | ⟨h1, h1s⟩ <;> rcases hbc with h2 | ⟨h2, h2s⟩
    · exact Or.inl (h1.trans h2)
    · exact Or.inl (h2 ▸ h1)
    · exact Or.inl (h1 ▸ h2)
    · exact Or.inr ⟨h1.trans h2, pyStrLeAux_trans _ _ _ h1s h2s⟩⟩

instance : IsAntisymm (Nat × String) pairLE :=
  ⟨fun a b hab hba => by
    rcases hab with h1 | ⟨h1, h1s⟩ <;> rcases hba with h2 | ⟨h2, h2s⟩
    · exact absurd (h1.trans h2) (lt_irrefl _)
    · exact absurd h1 (h2 ▸ lt_irrefl _)
    · exact absurd h2 (h1 ▸ lt_irrefl _)
    · exact Prod.ext h1 (string_data_inj (pyStrLeAux_antisymm _ _ h1s h2s))⟩

theorem mem_of_lookup_eq_some {β : Type} {l : List (String × β)} {k : String}
    {v : β} (h : l.lookup k = some v) : (k, v) ∈ l := by
  obtain ⟨l₁, l₂, rfl, -⟩ := List.lookup_eq_some_iff.mp h
  simp

theorem lookup_of_mem_of_nodupkeys {β : Type} {l : List (String × β)}
    {k : String} {v : β} (nd : (l.map Prod.fst).Nodup) (h : (k, v) ∈ l) :
    l.lookup k = some v := by
  obtain ⟨l₁, l₂, rfl⟩ := List.append_of_mem h
  refine List.lookup_eq_some_iff.mpr ⟨l₁, l₂, rfl, ?_⟩
  intro p hp
  rw [List.map_append, List.map_cons] at nd
  have hdisj := (List.nodup_append.mp nd).2.2
  have hne : p.1 ≠ k := by
    intro e
    exact hdisj (List.mem_map_of_mem Prod.fst hp) (e ▸ List.mem_cons_self _ _)
  simpa using hne.symm

theorem dimensionMapKeysNodup : (DIMENSION_MAP.map Prod.fst).Nodup := by decide

theorem innerKeysNodup : ∀ p ∈ DIMENSION_MAP, (p.2.map Prod.fst).Nodup := by decide

theorem get_all_dimensions_nodup : get_all_dimensions.Nodup := by decide

/-- Every flattened table entry is recovered exactly by `get_dimensions`. -/
theorem get_dimensions_of_mem {d : Dim} (h : d ∈ get_all_dimensions) :
    get_dimensions d.ar d.res = .ok (d.w, d.h) := by
  rw [get_all_dimensions] at h
  obtain ⟨p, hp, hq0⟩ := List.mem_flatMap.mp h
  obtain ⟨q, hq, rfl⟩ := List.mem_map.mp hq0
  have h1 : DIMENSION_MAP.lookup p.1 = some p.2 :=
    lookup_of_mem_of_nodupkeys dimensionMapKeysNodup
      (by rw [Prod.mk.eta]; exact hp)
  have h2 : p.2.lookup q.1 = some q.2 :=
    lookup_of_mem_of_nodupkeys (innerKeysNodup p hp)
      (by rw [Prod.mk.eta]; exact hq)
  simp [get_dimensions, h1, h2]

/-- A successful `get_dimensions` lookup corresponds to a flattened table
entry. -/
theorem mem_of_get_dimensions {ar res : String} {tw th : Nat}
    (h : get_dimensions ar res = .ok (tw, th)) :
    (⟨tw, th, ar, res⟩ : Dim) ∈ get_all_dimensions := by
  unfold get_dimensions at h
  split at h
  · simp at h
  rename_i m h1
  split at h
  · simp at h
  rename_i wh h2
  obtain rfl : wh = (tw, th) := by simpa using h
  exact List.mem_flatMap.mpr
    ⟨(ar, m), mem_of_lookup_eq_some h1,
     List.mem_map.mpr ⟨(res, (tw, th)), mem_of_lookup_eq_some h2, rfl⟩⟩

/-- The head of a stable sort is the first element of the input that
attains the minimum of the sort order: stability keeps the earliest
minimal element in front. -/
theorem insertionSort_head_of_first_min {α : Type} (r : α → α → Prop)
    [DecidableRel r] [IsTotal α r] [IsTrans α r] {l pre post : List α} {e : α}
    (nd : l.Nodup) (hl : l = pre ++ e :: post)
    (hmin : ∀ d ∈ l, r e d) (hpre : ∀ d ∈ pre, ¬ r d e) :
    ∃ rest, l.insertionSort r = e :: rest := by
  have hperm : List.Perm (l.insertionSort r) l := List.perm_insertionSort r l
  cases hs : l.insertionSort r with
  | nil =>
    exfalso
    rw [hs] at hperm
    have := hperm.symm.eq_nil
    simp [hl] at this
  | cons x rest =>
    have hsorted : List.Sorted r (x :: rest) := hs ▸ List.sorted_insertionSort r l
    have hxl : x ∈ l := by
      rw [← List.mem_insertionSort (r := r), hs]
      exact List.mem_cons_self _ _
    by_cases hxe : x = e
    · subst hxe
      exact ⟨rest, rfl⟩
    exfalso
    rw [hl] at hxl
    rcases List.mem_append.mp hxl with hp | hq
    · -- x appears before e in the input, hence is not below e; but the
      -- head of the sorted list is below everything.
      have he_l : e ∈ l := by
        rw [hl]; exact List.mem_append_right _ (List.mem_cons_self _ _)
      have he_s : e ∈ x :: rest := by
        rw [← hs, List.mem_insertionSort]; exact he_l
      rcases List.mem_cons.mp he_s with heq | hmem
      · exact hxe heq.symm
      · exact hpre x hp (List.rel_of_sorted_cons hsorted e hmem)
    · have hxpost : x ∈ post := by
        rcases List.mem_cons.mp hq with h | h
        · exact absurd h hxe
        · exact h
      have hsub : List.Sublist [e, x] l := by
        rw [hl]
        exact (List.Sublist.cons₂ e (List.singleton_sublist.mpr hxpost)).trans
          (List.sublist_append_right pre (e :: post))
      have hrex : r e x := hmin x (hl ▸ hxl)
      have hpair := List.pair_sublist_insertionSort hrex hsub
      rw [hs] at hpair
      have hnd : (x :: rest).Nodup := by
        rw [← hs]
        exact hperm.nodup_iff.mpr nd
      cases hpair with
      | cons _ h =>
        exact (List.nodup_cons.mp hnd).1 (h.subset (by simp))
      | cons₂ h =>
        exact hxe rfl

/-- Elimination form for a successful `calcWithSize`: any `.ok` output
passed validation, resolved to some `(aspect, resolution)` pair, looked it
up, passed the oversize check, and was assembled by the padding
arithmetic of lines 177–185. -/
theorem calc_ok_elim {W H : Nat} {a r : String} {out : PadResult}
    (h : calcWithSize W H a r = .ok out) :
    ∃ ar res tw th, resolveHints W H a r = .ok (ar, res) ∧
      get_dimensions ar res = .ok (tw, th) ∧ W ≤ tw ∧ H ≤ th ∧
      out = ⟨(tw - W) / 2, (tw - W) - (tw - W) / 2, (th - H) / 2,
             (th - H) - (th - H) / 2, tw, th, ar, res⟩ := by
  unfold calcWithSize at h
  split at h
  · simp at h
  split at h
  · simp at h
  split at h
  · simp at h
  rename_i ar res hres
  split at h
  · simp at h
  rename_i tw th hdim
  split at h
  · simp at h
  rename_i hsize
  refine ⟨ar, res, tw, th, hres, hdim, ?_, ?_, by simpa using h.symm⟩ <;> omega

theorem resolveHints_auto_auto {W H : Nat} :
    resolveHints W H "auto" "auto" = find_best_fit W H := by
  unfold resolveHints
  rw [if_pos ⟨rfl, rfl⟩]

theorem resolveHints_auto_res {W H : Nat} {res : String} (h : res ≠ "auto") :
    resolveHints W H "auto" res =
      match (resCandidates W H res).insertionSort pairLE with
      | [] => .error (.tooLargeForResolution W H res)
      | c :: _ => .ok (c.2, res) := by
  unfold resolveHints
  rw [if_neg (fun hc => h hc.2), if_pos rfl]

theorem resolveHints_ar_auto {W H : Nat} {ar : String} (h : ar ≠ "auto") :
    resolveHints W H ar "auto" =
      match pickResolution W H ar ["1K", "2K", "4K"] with
      | .ok r => .ok (ar, r)
      | .error e => .error e := by
  unfold resolveHints
  rw [if_neg (fun hc => h hc.1), if_neg h, if_pos rfl]

theorem resolveHints_pinned {W H : Nat} {ar res : String} (h1 : ar ≠ "auto")
    (h2 : res ≠ "auto") : resolveHints W H ar res = .ok (ar, res) := by
  unfold resolveHints
  rw [if_neg (fun hc => h1 hc.1), if_neg h1, if_neg h2]

theorem calc_err {W H : Nat} {ar res : String} {e : FitError}
    (hv1 : ar ∈ VALID_ASPECT_RATIOS) (hv2 : res ∈ VALID_RESOLUTIONS)
    (hres : resolveHints W H ar res = .error e) :
    calcWithSize W H ar res = .error e := by
  unfold calcWithSize
  rw [if_neg (by simpa using hv1), if_neg (by simpa using hv2)]
  simp only [hres]

theorem calc_build {W H : Nat} {ar res a r : String} {tw th : Nat}
    (hv1 : ar ∈ VALID_ASPECT_RATIOS) (hv2 : res ∈ VALID_RESOLUTIONS)
    (hres : resolveHints W H ar res = .ok (a, r))
    (hdim : get_dimensions a r = .ok (tw, th))
    (hw : W ≤ tw) (hh : H ≤ th) :
    calcWithSize W H ar res =
      .ok ⟨(tw - W) / 2, (tw - W) - (tw - W) / 2, (th - H) / 2,
           (th - H) - (th - H) / 2, tw, th, a, r⟩ := by
  unfold calcWithSize
  rw [if_neg (by simpa using hv1), if_neg (by simpa using hv2)]
  simp only [hres, hdim]
  rw [if_neg (by omega)]

theorem calc_oversized {W H : Nat} {ar res a r : String} {tw th : Nat}
    (hv1 : ar ∈ VALID_ASPECT_RATIOS) (hv2 : res ∈ VALID_RESOLUTIONS)
    (hres : resolveHints W H ar res = .ok (a, r))
    (hdim : get_dimensions a r = .ok (tw, th))
    (hover : tw < W ∨ th < H) :
    calcWithSize W H ar res = .error (.oversizedTarget W H tw th a r) := by
  unfold calcWithSize
  rw [if_neg (by simpa using hv1), if_neg (by simpa using hv2)]
  simp only [hres, hdim]
  rw [if_pos hover]

/-- Every non-auto supported aspect label has an entry for every tier of
the source's tier list. -/
theorem all_tiers_ok {ar : String} (h1 : ar ∈ VALID_ASPECT_RATIOS)
    (h2 : ar ≠ "auto") :
    ∀ r ∈ ["1K", "2K", "4K"], ∃ tw th, get_dimensions ar r = .ok (tw, th) := by
  fin_cases h1
  · exact absurd rfl h2
  all_goals intro r hr; fin_cases hr <;> exact ⟨_, _, rfl⟩

/-- When every tier of the list has an entry, the fixed-aspect loop is
`find?` over the loop condition. -/
theorem pickResolution_eq_find {W H : Nat} {ar : String} (rs : List String)
    (hok : ∀ r ∈ rs, ∃ tw th, get_dimensions ar r = .ok (tw, th)) :
    pickResolution W H ar rs =
      match rs.find? (tierFits W H ar) with
      | some r => .ok r
      | none => .error (.tooLargeForAspect W H ar) := by
  induction rs with
  | nil => rfl
  | cons r rest ih =>
    obtain ⟨tw, th, hd⟩ := hok r (List.mem_cons_self _ _)
    have hfits : tierFits W H ar r = decide (W ≤ tw ∧ H ≤ th ∧ (W < tw ∨ H < th)) := by
      unfold tierFits
      rw [hd]
    rw [pickResolution]
    simp only [hd, List.find?_cons, hfits]
    by_cases hc : W ≤ tw ∧ H ≤ th ∧ (W < tw ∨ H < th)
    · rw [if_pos hc]
      simp [hc]
    · rw [if_neg hc]
      simp only [decide_eq_false hc]
      exact ih fun r' hr' => hok r' (List.mem_cons_of_mem _ hr')

/-- Unfolding of a membership in the fixed-resolution candidate list. -/
theorem resCandidates_mem {W H : Nat} {res : String} {e : Nat × String}
    (h : e ∈ resCandidates W H res) :
    ∃ tw th, get_dimensions e.2 res = .ok (tw, th) ∧ e.1 = tw * th ∧
      W ≤ tw ∧ H ≤ th ∧ (W < tw ∨ H < th) := by
  unfold resCandidates at h
  obtain ⟨p, hp, hfp⟩ := List.mem_filterMap.mp h
  split at hfp
  · rename_i wh hlook
    split at hfp
    · rename_i hcond
      obtain rfl : (wh.1 * wh.2, p.1) = e := by simpa using hfp
      have h1 : DIMENSION_MAP.lookup p.1 = some p.2 :=
        lookup_of_mem_of_nodupkeys dimensionMapKeysNodup
          (by rw [Prod.mk.eta]; exact hp)
      refine ⟨wh.1, wh.2, ?_, rfl, hcond.1, hcond.2.1, hcond.2.2⟩
      simp [get_dimensions, h1, hlook]
    · simp at hfp
  · simp at hfp

/-- A table entry reached through an inner lookup is a flattened entry. -/
theorem mem_all_of_lookup {p : String × List (String × (Nat × Nat))}
    {r : String} {wh : Nat × Nat} (hp : p ∈ DIMENSION_MAP)
    (hlook : p.2.lookup r = some wh) :
    (⟨wh.1, wh.2, p.1, r⟩ : Dim) ∈ get_all_dimensions :=
  List.mem_flatMap.mpr
    ⟨p, hp, List.mem_map.mpr ⟨(r, wh), mem_of_lookup_eq_some hlook, rfl⟩⟩

theorem growCandidates_nil_of_big {W H : Nat}
    (hbig : ∀ d ∈ get_all_dimensions, d.w < W) :
    growCandidates W H = [] := by
  unfold growCandidates
  rw [List.filter_eq_nil_iff]
  intro d hd
  have hlt := hbig d hd
  simp only [decide_eq_true_eq]
  intro hc
  omega

theorem resCandidates_nil_of_big {W H : Nat} {res : String}
    (hbig : ∀ d ∈ get_all_dimensions, d.w < W) :
    resCandidates W H res = [] := by
  unfold resCandidates
  rw [List.filterMap_eq_nil_iff]
  intro p hp
  cases hlook : p.2.lookup res with
  | none => rfl
  | some wh =>
    have hlt : wh.1 < W := hbig _ (mem_all_of_lookup hp hlook)
    exact if_neg (fun hc => absurd hc.1 (by omega))

theorem tierFits_false_of_big {W H : Nat} {ar r : String}
    (hbig : ∀ d ∈ get_all_dimensions, d.w < W) :
    tierFits W H ar r = false := by
  unfold tierFits
  split
  · rename_i wh hok
    have hok' : get_dimensions ar r = .ok (wh.1, wh.2) := by
      rw [Prod.mk.eta]; exact hok
    have hlt : wh.1 < W := hbig _ (mem_of_get_dimensions hok')
    simp only [decide_eq_false_iff_not]
    intro hc
    omega
  · rfl

/-- Successful lookups never return the sentinel "auto" strings: only real
labels and tiers are table keys. -/
theorem get_dimensions_ok_not_auto {ar res : String} {tw th : Nat}
    (h : get_dimensions ar res = .ok (tw, th)) :
    ar ≠ "auto" ∧ res ≠ "auto" := by
  have hmem := mem_of_get_dimensions h
  have hall : ∀ d ∈ get_all_dimensions, d.ar ≠ "auto" ∧ d.res ≠ "auto" := by
    decide
  exact hall _ hmem

end NanoBananaPad

namespace Claims

open NanoBananaPad GeminiNode

/-- C1: with both hints auto, the fitter fails with the SizeExceeded error
when no table entry strictly contains the source (`growCandidates` empty),
and otherwise returns the label and tier of the area-minimal
strictly-containing entry, area ties broken by the table's iteration
order: whenever `e` is the first candidate of minimal area `e.w * e.h`
(everything before it in candidate order is strictly larger in area,
nothing anywhere is smaller), the result is `(e.ar, e.res)`. -/
theorem C1_auto_auto_min_area (W H : Nat) :
    (growCandidates W H = [] →
      find_best_fit W H = .error (.sizeExceeded W H)) ∧
    (∀ pre e post, growCandidates W H = pre ++ e :: post →
      (∀ d ∈ pre, e.w * e.h < d.w * d.h) →
      (∀ d ∈ growCandidates W H, e.w * e.h ≤ d.w * d.h) →
      find_best_fit W H = .ok (e.ar, e.res)) := by
  constructor
  · intro h
    simp [find_best_fit, h]
  · intro pre e post hdecomp hpre hmin
    have nd : (growCandidates W H).Nodup :=
      List.Nodup.filter _ get_all_dimensions_nodup
    obtain ⟨rest, hsort⟩ :=
      insertionSort_head_of_first_min dimLE nd hdecomp
        (fun d hd => hmin d hd)
        (fun d hd hc => absurd (hpre d hd) (Nat.not_lt.mpr hc))
    simp [find_best_fit, hsort]

/-- Witness for C1 at source 1000×1000: the 1:1 / 1K entry 1024×1024 is
the first area-minimal candidate. -/
theorem C1_witness : find_best_fit 1000 1000 = .ok ("1:1", "1K") :=
  (C1_auto_auto_min_area 1000 1000).2 [] ⟨1024, 1024, "1:1", "1K"⟩
    [⟨2048, 2048, "1:1", "2K"⟩, ⟨4096, 4096, "1:1", "4K"⟩,
     ⟨2304, 1856, "5:4", "2K"⟩, ⟨4608, 3712, "5:4", "4K"⟩,
     ⟨1856, 2304, "4:5", "2K"⟩, ⟨3712, 4608, "4:5", "4K"⟩,
     ⟨2400, 1792, "4:3", "2K"⟩, ⟨4800, 3584, "4:3", "4K"⟩,
     ⟨1792, 2400, "3:4", "2K"⟩, ⟨3584, 4800, "3:4", "4K"⟩,
     ⟨2528, 1696, "3:2", "2K"⟩, ⟨5056, 3392, "3:2", "4K"⟩,
     ⟨1696, 2528, "2:3", "2K"⟩, ⟨3392, 5056, "2:3", "4K"⟩,
     ⟨2752, 1536, "16:9", "2K"⟩, ⟨5504, 3072, "16:9", "4K"⟩,
     ⟨1536, 2752, "9:16", "2K"⟩, ⟨3072, 5504, "9:16", "4K"⟩,
     ⟨3168, 1344, "21:9", "2K"⟩, ⟨6336, 2688, "21:9", "4K"⟩]
    (by decide) (by decide) (by decide)

/-- C3: with a known (non-auto) aspect label and resolution auto, the
fitter walks the tiers 1K, 2K, 4K in order and succeeds on the first
whose entry strictly contains the source, failing with the
too-large-for-aspect error when even 4K does not; in particular source
2000×800 pinned to 21:9 resolves to 2K, 3168×1344. -/
theorem C3_fixed_aspect_auto_res (W H : Nat) (ar : String)
    (h1 : ar ∈ VALID_ASPECT_RATIOS) (h2 : ar ≠ "auto") :
    (["1K", "2K", "4K"].find? (tierFits W H ar) = none →
      calcWithSize W H ar "auto" = .error (.tooLargeForAspect W H ar)) ∧
    (∀ r, ["1K", "2K", "4K"].find? (tierFits W H ar) = some r →
      ∃ tw th, get_dimensions ar r = .ok (tw, th) ∧ W ≤ tw ∧ H ≤ th ∧
        calcWithSize W H ar "auto" =
          .ok ⟨(tw - W) / 2, (tw - W) - (tw - W) / 2, (th - H) / 2,
               (th - H) - (th - H) / 2, tw, th, ar, r⟩) ∧
    calcWithSize 2000 800 "21:9" "auto" =
      .ok ⟨584, 584, 272, 272, 3168, 1344, "21:9", "2K"⟩ := by
  have hok := all_tiers_ok h1 h2
  have hpick := pickResolution_eq_find (W := W) (H := H) ["1K", "2K", "4K"] hok
  refine ⟨?_, ?_, by decide⟩
  · intro hfind
    refine calc_err h1 (by decide) ?_
    rw [resolveHints_ar_auto h2, hpick, hfind]
  · intro r hfind
    have hfit : tierFits W H ar r = true := List.find?_some hfind
    have hdc : ∃ tw th, get_dimensions ar r = .ok (tw, th) ∧
        (W ≤ tw ∧ H ≤ th ∧ (W < tw ∨ H < th)) := by
      unfold tierFits at hfit
      split at hfit
      · rename_i wh hw
        exact ⟨wh.1, wh.2, by rw [Prod.mk.eta]; exact hw,
               of_decide_eq_true hfit⟩
      · simp at hfit
    obtain ⟨tw, th, hd, hcond⟩ := hdc
    refine ⟨tw, th, hd, hcond.1, hcond.2.1, ?_⟩
    refine calc_build h1 (by decide) ?_ hd hcond.1 hcond.2.1
    rw [resolveHints_ar_auto h2, hpick, hfind]

/-- Witness for C3 at the claim's own example, source 2000×800 with
aspect 21:9: the first fitting tier is 2K. -/
theorem C3_witness :
    ∃ tw th, get_dimensions "21:9" "2K" = .ok (tw, th) ∧
      2000 ≤ tw ∧ 800 ≤ th ∧
      calcWithSize 2000 800 "21:9" "auto" =
        .ok ⟨(tw - 2000) / 2, (tw - 2000) - (tw - 2000) / 2, (th - 800) / 2,
             (th - 800) - (th - 800) / 2, tw, th, "21:9", "2K"⟩ :=
  (C3_fixed_aspect_auto_res 2000 800 "21:9" (by decide) (by decide)).2.1 "2K"
    (by decide)

/-- C4: with a pinned (non-auto) resolution tier and aspect auto, the
fitter keeps the tier's strictly-containing entries and picks the one
minimal under Python's `(area, label)` tuple order — smallest area first,
area ties broken by ascending label string — failing with the
too-large-for-resolution error when no entry of the tier fits. -/
theorem C4_fixed_res_auto_aspect (W H : Nat) (res : String)
    (h1 : res ∈ VALID_RESOLUTIONS) (h2 : res ≠ "auto") :
    (resCandidates W H res = [] →
      calcWithSize W H "auto" res = .error (.tooLargeForResolution W H res)) ∧
    (∀ e ∈ resCandidates W H res, (∀ d ∈ resCandidates W H res, pairLE e d) →
      ∃ tw th, get_dimensions e.2 res = .ok (tw, th) ∧ e.1 = tw * th ∧
        W ≤ tw ∧ H ≤ th ∧
        calcWithSize W H "auto" res =
          .ok ⟨(tw - W) / 2, (tw - W) - (tw - W) / 2, (th - H) / 2,
               (th - H) - (th - H) / 2, tw, th, e.2, res⟩) := by
  constructor
  · intro h
    refine calc_err (by decide) h1 ?_
    rw [resolveHints_auto_res h2, h]
    rfl
  · intro e hmem hmin
    cases hs : (resCandidates W H res).insertionSort pairLE with
    | nil =>
      exfalso
      have hperm := List.perm_insertionSort pairLE (resCandidates W H res)
      rw [hs] at hperm
      rw [hperm.symm.eq_nil] at hmem
      exact absurd hmem (List.not_mem_nil e)
    | cons x rest =>
      have hsorted : List.Sorted pairLE (x :: rest) := by
        rw [← hs]
        exact List.sorted_insertionSort pairLE _
      have hxmem : x ∈ resCandidates W H res := by
        rw [← List.mem_insertionSort (r := pairLE), hs]
        exact List.mem_cons_self _ _
      have hex : pairLE e x := hmin x hxmem
      have hxe : pairLE x e := by
        have he' : e ∈ x :: rest := by
          rw [← hs, List.mem_insertionSort]
          exact hmem
        rcases List.mem_cons.mp he' with heq | hmem'
        · subst heq
          exact Or.inr ⟨rfl, by
            rcases pyStrLeAux_total e.2.data e.2.data with h | h <;> exact h⟩
        · exact List.rel_of_sorted_cons hsorted e hmem'
      have hxeq : e = x := antisymm hex hxe
      subst hxeq
      obtain ⟨tw, th, hd, harea, hW, hH, hgrow⟩ := resCandidates_mem hmem
      refine ⟨tw, th, hd, harea, hW, hH, ?_⟩
      refine calc_build (by decide) h1 ?_ hd hW hH
      rw [resolveHints_auto_res h2, hs]

/-- Witness for C4 at source 1000×700 with resolution 1K: the 1:1 entry is
the `(area, label)`-minimal fitting candidate. -/
theorem C4_witness :
    ∃ tw th, get_dimensions "1:1" "1K" = .ok (tw, th) ∧
      (1048576 : Nat) = tw * th ∧ 1000 ≤ tw ∧ 700 ≤ th ∧
      calcWithSize 1000 700 "auto" "1K" =
        .ok ⟨(tw - 1000) / 2, (tw - 1000) - (tw - 1000) / 2, (th - 700) / 2,
             (th - 700) - (th - 700) / 2, tw, th, "1:1", "1K"⟩ :=
  (C4_fixed_res_auto_aspect 1000 700 "1K" (by decide) (by decide)).2
    (1048576, "1:1") (by decide) (by decide)

/-- C5 (amended): a source strictly exceeding every table entry in both
dimensions fails regardless of hints, but the error class depends on the
hints: the SizeExceeded error of `find_best_fit` when both hints are
auto, the too-large-for-resolution / too-large-for-aspect errors when
exactly one is auto, and the oversized-target error (the spec's
OversizedExplicitTarget) when both are pinned. -/
theorem C5_oversize_fails_by_hints (W H : Nat) (ar res : String)
    (hbig : ∀ d ∈ get_all_dimensions, d.w < W ∧ d.h < H)
    (har : ar ∈ VALID_ASPECT_RATIOS) (hres : res ∈ VALID_RESOLUTIONS) :
    (ar = "auto" → res = "auto" →
      calcWithSize W H ar res = .error (.sizeExceeded W H)) ∧
    (ar = "auto" → res ≠ "auto" →
      calcWithSize W H ar res = .error (.tooLargeForResolution W H res)) ∧
    (ar ≠ "auto" → res = "auto" →
      calcWithSize W H ar res = .error (.tooLargeForAspect W H ar)) ∧
    (ar ≠ "auto" → res ≠ "auto" →
      ∃ tw th, get_dimensions ar res = .ok (tw, th) ∧
        calcWithSize W H ar res = .error (.oversizedTarget W H tw th ar res)) := by
  have hbigW : ∀ d ∈ get_all_dimensions, d.w < W := fun d hd => (hbig d hd).1
  refine ⟨?_, ?_, ?_, ?_⟩
  · rintro rfl rfl
    refine calc_err har hres ?_
    rw [resolveHints_auto_auto]
    simp [find_best_fit, growCandidates_nil_of_big hbigW]
  · rintro rfl hne
    refine calc_err har hres ?_
    rw [resolveHints_auto_res hne, resCandidates_nil_of_big hbigW]
    rfl
  · intro hne hra
    subst hra
    refine calc_err har hres ?_
    rw [resolveHints_ar_auto hne,
        pickResolution_eq_find _ (all_tiers_ok har hne)]
    have hnone : ["1K", "2K", "4K"].find? (tierFits W H ar) = none := by
      rw [List.find?_eq_none]
      intro x hx
      simp [tierFits_false_of_big hbigW]
    rw [hnone]
  · intro hna hnr
    have hres3 : res ∈ ["1K", "2K", "4K"] := by
      fin_cases hres
      · exact absurd rfl hnr
      all_goals decide
    obtain ⟨tw, th, hd⟩ := all_tiers_ok har hna res hres3
    have hlt : tw < W := hbigW _ (mem_of_get_dimensions hd)
    exact ⟨tw, th, hd,
      calc_oversized har hres (resolveHints_pinned hna hnr) hd (Or.inl hlt)⟩

/-- Witness for C5's amended theorem: a 7000×7000 source with both hints
auto fails with the SizeExceeded error. -/
theorem C5_witness :
    calcWithSize 7000 7000 "auto" "auto" = .error (.sizeExceeded 7000 7000) :=
  (C5_oversize_fails_by_hints 7000 7000 "auto" "auto" (by decide) (by decide)
    (by decide)).1 rfl rfl

/-- Counterexample to C5 as stated: a 7000×7000 source strictly exceeds
every table entry in both dimensions, yet with both hints pinned the
failure is the oversized-target error raised at line 172 (the spec's
OversizedExplicitTarget), not the SizeExceeded error of line 96. -/
theorem C5_counterexample :
    (∀ d ∈ get_all_dimensions, d.w < 7000 ∧ d.h < 7000) ∧
    calcWithSize 7000 7000 "1:1" "4K" =
      .error (.oversizedTarget 7000 7000 4096 4096 "1:1" "4K") ∧
    calcWithSize 7000 7000 "1:1" "4K" ≠ .error (.sizeExceeded 7000 7000) :=
  ⟨by decide, by decide, by decide⟩

/-- C9: every successful fit returns a non-auto `(label, tier)` pair whose
table lookup is exactly the returned target size, and every supported
non-auto label has an entry at every non-auto tier, so a pinned request
with valid label and tier never fails for an absent pair. -/
theorem C9_result_pair_in_table :
    (∀ W H ar res out, calcWithSize W H ar res = .ok out →
      out.aspect_ratio ≠ "auto" ∧ out.resolution ≠ "auto" ∧
      get_dimensions out.aspect_ratio out.resolution =
        .ok (out.target_w, out.target_h)) ∧
    (∀ label ∈ VALID_ASPECT_RATIOS, label ≠ "auto" →
      ∀ tier ∈ VALID_RESOLUTIONS, tier ≠ "auto" →
        (get_dimensions label tier).isOk = true) := by
  constructor
  · intro W H ar res out h
    obtain ⟨a, r, tw, th, -, hdim, -, -, rfl⟩ := calc_ok_elim h
    have hna := get_dimensions_ok_not_auto hdim
    exact ⟨hna.1, hna.2, hdim⟩
  · decide

/-- Witness for C9 at source 1000×1000 with both hints auto: the returned
pair (1:1, 1K) is a table key mapping to the returned 1024×1024. -/
theorem C9_witness :
    ("1:1" : String) ≠ "auto" ∧ ("1K" : String) ≠ "auto" ∧
    get_dimensions "1:1" "1K" = .ok (1024, 1024) :=
  C9_result_pair_in_table.1 1000 1000 "auto" "auto"
    ⟨12, 12, 12, 12, 1024, 1024, "1:1", "1K"⟩ (by decide)

/-- C2: for every successful fit, `pad_left = (target_w - W) / 2`,
`pad_right = (target_w - W) - pad_left`, `pad_top = (target_h - H) / 2`,
`pad_bottom = (target_h - H) - pad_top`; the pads on each axis sum to the
slack, the odd remainder goes to the right and the bottom, and the slack
is non-negative (`W ≤ target_w`, `H ≤ target_h`; the pads are `Nat`, hence
non-negative, and since the target dominates the source the `Nat`
subtractions agree with integer subtraction). -/
theorem C2_padding_arithmetic (W H : Nat) (ar res : String) (out : PadResult)
    (h : calcWithSize W H ar res = .ok out) :
    W ≤ out.target_w ∧ H ≤ out.target_h ∧
    out.pad_left = (out.target_w - W) / 2 ∧
    out.pad_right = (out.target_w - W) - out.pad_left ∧
    out.pad_top = (out.target_h - H) / 2 ∧
    out.pad_bottom = (out.target_h - H) - out.pad_top ∧
    out.pad_left + out.pad_right = out.target_w - W ∧
    out.pad_top + out.pad_bottom = out.target_h - H := by
  obtain ⟨a, r, tw, th, -, -, hW, hH, rfl⟩ := calc_ok_elim h
  refine ⟨hW, hH, rfl, rfl, rfl, rfl, ?_, ?_⟩ <;> dsimp only <;> omega

/-- Witness for C2 at the spec's own example, source 1000×1000 with both
hints auto. -/
theorem C2_witness :
    1000 ≤ (1024 : Nat) ∧ 1000 ≤ (1024 : Nat) ∧
    (12 : Nat) = (1024 - 1000) / 2 ∧
    (12 : Nat) = (1024 - 1000) - 12 ∧
    (12 : Nat) = (1024 - 1000) / 2 ∧
    (12 : Nat) = (1024 - 1000) - 12 ∧
    (12 : Nat) + 12 = 1024 - 1000 ∧
    (12 : Nat) + 12 = 1024 - 1000 :=
  C2_padding_arithmetic 1000 1000 "auto" "auto"
    ⟨12, 12, 12, 12, 1024, 1024, "1:1", "1K"⟩ (by decide)

/-- C6: a request with both hints pinned to a table entry's label and tier
and source size exactly that entry succeeds with zero padding on all four
sides: exact equality is permitted when both hints are pinned, even
though auto-selection requires strict growth. -/
theorem C6_exact_pinned_zero_padding (d : Dim) (hd : d ∈ get_all_dimensions) :
    calcWithSize d.w d.h d.ar d.res = .ok ⟨0, 0, 0, 0, d.w, d.h, d.ar, d.res⟩ := by
  revert d
  decide

/-- Witness for C6 at the 1:1 / 1K entry. -/
theorem C6_witness :
    calcWithSize 1024 1024 "1:1" "1K" =
      .ok ⟨0, 0, 0, 0, 1024, 1024, "1:1", "1K"⟩ :=
  C6_exact_pinned_zero_padding ⟨1024, 1024, "1:1", "1K"⟩ (by decide)

/-- C7: an aspect label outside the supported set, with a pinned (valid,
non-auto) resolution, fails with the unknown-parameter error naming the
offending label; the result is exactly this validation error, so no
selection or padding computation contributes to it. -/
theorem C7_unknown_aspect_rejected (W H : Nat) (ar res : String)
    (h1 : ar ∉ VALID_ASPECT_RATIOS) (_h2 : res ∈ VALID_RESOLUTIONS)
    (_h3 : res ≠ "auto") :
    calcWithSize W H ar res = .error (.invalidAspectRatio ar) := by
  unfold calcWithSize
  rw [if_pos h1]

/-- Witness for C7 at the unsupported label "7:5" with resolution 1K. -/
theorem C7_witness :
    calcWithSize 100 100 "7:5" "1K" = .error (.invalidAspectRatio "7:5") :=
  C7_unknown_aspect_rejected 100 100 "7:5" "1K" (by decide) (by decide)
    (by decide)

/-- C8: the request builder places the aspect-ratio and resolution strings
verbatim into `generationConfig.imageConfig`, the prompt text and the
encoded image under `contents[0].parts`, and the credential in the
`x-goog-api-key` header; `buildGeminiRequest` is a total function on
strings, so no validation error is raised before the network call. -/
theorem C8_request_passthrough
    (prompt api_key model aspect_ratio resolution img_b64 : String) :
    (buildGeminiRequest prompt api_key model aspect_ratio resolution
        img_b64).generationConfig.imageConfig.aspectRatio = aspect_ratio ∧
    (buildGeminiRequest prompt api_key model aspect_ratio resolution
        img_b64).generationConfig.imageConfig.imageSize = resolution ∧
    (buildGeminiRequest prompt api_key model aspect_ratio resolution
        img_b64).contents =
      [⟨[.text prompt, .inline_data ⟨"image/png", img_b64⟩]⟩] ∧
    (buildGeminiRequest prompt api_key model aspect_ratio resolution
        img_b64).x_goog_api_key = api_key ∧
    (buildGeminiRequest prompt api_key model aspect_ratio resolution
        img_b64).generationConfig.responseModalities = ["Image"] :=
  ⟨rfl, rfl, rfl, rfl, rfl⟩

/-- C10: the fit computation depends only on the image's height and width
and the two hint strings; pixel payload, channel count and batch size are
irrelevant (the source reads nothing but `image.shape[1]` and
`image.shape[2]`). -/
theorem C10_depends_only_on_shape (img1 img2 : ImageTensor) (ar res : String)
    (hH : img1.height = img2.height) (hW : img1.width = img2.width) :
    calculate img1 ar res = calculate img2 ar res := by
  unfold calculate
  rw [hH, hW]

/-- Witness for C10: two images with the same 1000×1000 shape but
different batch size, channel count and pixel data fit identically. -/
theorem C10_witness :
    calculate ⟨1, 1000, 1000, 3, [0]⟩ "auto" "auto" =
      calculate ⟨2, 1000, 1000, 4, [9, 9]⟩ "auto" "auto" :=
  C10_depends_only_on_shape ⟨1, 1000, 1000, 3, [0]⟩ ⟨2, 1000, 1000, 4, [9, 9]⟩
    "auto" "auto" rfl rfl

end Claims
